import Mathlib

/-
  Shallow embedding of src/pslab/mock_handler.py (class MockHandler).

  Bytes are modelled as lists of natural numbers (each byte value a Nat).
  The Python dict response_map is modelled as an association list that
  preserves insertion order, matching CPython dict iteration order; an
  update of an existing key keeps its position, as CPython dicts do.
  Methods that can raise are modelled as functions returning a pair of an
  Except result and the post state, so that the state after an exception
  is explicit (Python leaves self unchanged when an exception is raised).
-/

namespace PSLabMock

/-- Error kinds raised by the handler: RuntimeError on a closed channel,
TypeError from send_byte on a non int, non bytes argument, ValueError
from the bytes constructor on an out of range integer, and struct.error
from struct.pack on an out of range 16 bit value. -/
inductive MHError where
  | notConnected
  | typeError
  | valueError
  | structError
deriving DecidableEq, Repr

deriving instance DecidableEq for Except

/-- State of a MockHandler instance: the fields set in MockHandler.__init__. -/
structure MockHandler where
  connected : Bool
  port : String
  response_map : List (List Nat × List Nat)
  read_buffer : List Nat
deriving DecidableEq, Repr

/-- MockHandler.__init__: connected is False, port is the argument when it
is truthy and the string MOCK_PORT otherwise, and the table and buffer
start empty. An empty string is falsy in Python, so it is replaced. -/
def mkMockHandler (port : Option String) : MockHandler :=
  { connected := false
  , port := match port with
      | some p => if p = "" then "MOCK_PORT" else p
      | none => "MOCK_PORT"
  , response_map := []
  , read_buffer := [] }

/-- The scan inside MockHandler.write: walk the response table in order
and return the response of the first entry whose key starts the data. -/
def firstMatch : List (List Nat × List Nat) → List Nat → Option (List Nat)
  | [], _ => none
  | (k, r) :: rest, d => if List.isPrefixOf k d then some r else firstMatch rest d

/-- MockHandler.open: store the port when the argument is truthy, then set
connected to True. Always succeeds. -/
def MockHandler.openHandler (h : MockHandler) (port : Option String) : MockHandler :=
  match port with
  | some p => if p = "" then { h with connected := true }
              else { h with port := p, connected := true }
  | none => { h with connected := true }

/-- MockHandler.close: set connected to False and clear the read buffer. -/
def MockHandler.close (h : MockHandler) : MockHandler :=
  { h with connected := false, read_buffer := [] }

/-- MockHandler.write: raise RuntimeError when not connected; otherwise
append the response of the first matching table entry, if any, to the
read buffer, and return the length of the data. -/
def MockHandler.write (h : MockHandler) (data : List Nat) :
    Except MHError Nat × MockHandler :=
  if h.connected then
    match firstMatch h.response_map data with
    | some resp => (.ok data.length, { h with read_buffer := h.read_buffer ++ resp })
    | none => (.ok data.length, h)
  else (.error .notConnected, h)

/-- MockHandler.read: raise RuntimeError when not connected; when fewer
than size bytes are buffered return them all and clear the buffer,
otherwise return the first size bytes and drop them from the buffer. -/
def MockHandler.read (h : MockHandler) (size : Nat) :
    Except MHError (List Nat) × MockHandler :=
  if h.connected then
    if h.read_buffer.length < size then
      (.ok h.read_buffer, { h with read_buffer := [] })
    else
      (.ok (h.read_buffer.take size), { h with read_buffer := h.read_buffer.drop size })
  else (.error .notConnected, h)

/-- MockHandler.get_ack, final definition in the class body: returns True
and touches no state. The earlier integer returning definition is dead
code, shadowed by this one. -/
def MockHandler.get_ack (_h : MockHandler) : Bool :=
  true

/-- MockHandler.clear_buffer: discard all buffered bytes unconditionally. -/
def MockHandler.clear_buffer (h : MockHandler) : MockHandler :=
  { h with read_buffer := [] }

/-- The argument of send_byte as seen by the isinstance checks: a Python
int, a Python bytes object, or a value of any other type. -/
inductive PyVal where
  | int (n : Int)
  | bytes (bs : List Nat)
  | other
deriving DecidableEq, Repr

/-- MockHandler.send_byte: an int is wrapped by bytes([val]), which raises
ValueError outside [0,255], and then written; a bytes object is written
as given, whatever its length; anything else raises TypeError. -/
def MockHandler.send_byte (h : MockHandler) (v : PyVal) :
    Except MHError Unit × MockHandler :=
  match v with
  | .int n =>
      if 0 ≤ n ∧ n < 256 then
        ((h.write [n.toNat]).1.map fun _ => (), (h.write [n.toNat]).2)
      else (.error .valueError, h)
  | .bytes bs => ((h.write bs).1.map fun _ => (), (h.write bs).2)
  | .other => (.error .typeError, h)

/-- MockHandler.send_int: pack the value as a 2 byte little endian
unsigned integer and write it; struct.pack raises on values outside
the 16 bit range. -/
def MockHandler.send_int (h : MockHandler) (val : Nat) :
    Except MHError Unit × MockHandler :=
  if val < 65536 then
    ((h.write [val % 256, val / 256]).1.map fun _ => (),
     (h.write [val % 256, val / 256]).2)
  else (.error .structError, h)

/-- MockHandler.read_byte: read one byte; an empty result decodes to 0. -/
def MockHandler.read_byte (h : MockHandler) : Except MHError Nat × MockHandler :=
  match h.read 1 with
  | (.ok data, h2) => (.ok (if data = [] then 0 else data.headD 0), h2)
  | (.error e, h2) => (.error e, h2)

/-- MockHandler.read_int: read two bytes; fewer than two decode to 0,
otherwise little endian unsigned 16 bit decode. -/
def MockHandler.read_int (h : MockHandler) : Except MHError Nat × MockHandler :=
  match h.read 2 with
  | (.ok data, h2) =>
      (.ok (if data.length < 2 then 0 else data.headD 0 + 256 * (data.drop 1).headD 0), h2)
  | (.error e, h2) => (.error e, h2)

/-- Insertion ordered dict update: an existing key keeps its position and
gets the new value, a new key is appended at the end. -/
def updMap : List (List Nat × List Nat) → List Nat → List Nat → List (List Nat × List Nat)
  | [], k, r => [(k, r)]
  | (k1, r1) :: rest, k, r =>
      if k1 = k then (k, r) :: rest else (k1, r1) :: updMap rest k r

/-- MockHandler.register_response: insert or overwrite the mapping. -/
def MockHandler.register_response (h : MockHandler) (command response : List Nat) :
    MockHandler :=
  { h with response_map := updMap h.response_map command response }

/-- MockHandler.inject_data: append bytes directly to the read buffer. -/
def MockHandler.inject_data (h : MockHandler) (data : List Nat) : MockHandler :=
  { h with read_buffer := h.read_buffer ++ data }

/-- A connected handler with empty table and buffer, used as a concrete
test state. -/
def connEmpty : MockHandler :=
  { connected := true, port := "MOCK_PORT", response_map := [], read_buffer := [] }

example : (connEmpty.read 3).1 = .ok [] := by decide
example : ((connEmpty.inject_data [1, 2, 3]).read 2).1 = .ok [1, 2] := by decide
example : ((connEmpty.register_response [1] [0xAA, 0xBB]).write [1, 2]).1 = .ok 2 := by decide
example : ((connEmpty.register_response [1] [0xAA, 0xBB]).write [1, 2]).2.read_buffer = [0xAA, 0xBB] := by decide
example : ((mkMockHandler none).write [5]).1 = .error .notConnected := by decide
example : ((connEmpty.send_int 0x1234).2.inject_data [0x34, 0x12]).read_int.1 = .ok 0x1234 := by decide

/-- When some registered key starts the data, the scan finds a response. -/
lemma firstMatch_isSome_of_mem (m : List (List Nat × List Nat)) (d k r : List Nat)
    (hmem : (k, r) ∈ m) (hp : List.isPrefixOf k d = true) :
    ∃ r0, firstMatch m d = some r0 := by
  induction m with
  | nil => cases hmem
  | cons q rest ih =>
    obtain ⟨k1, r1⟩ := q
    by_cases h1 : List.isPrefixOf k1 d = true
    · exact ⟨r1, by simp [firstMatch, h1]⟩
    · rcases List.mem_cons.mp hmem with heq | htl
      · cases heq
        exact absurd hp h1
      · obtain ⟨r0, hr0⟩ := ih htl
        exact ⟨r0, by simp [firstMatch, h1, hr0]⟩

/-- The scan returns the response of the first matching entry. -/
lemma firstMatch_first (pre : List (List Nat × List Nat)) (k r : List Nat)
    (post : List (List Nat × List Nat)) (d : List Nat)
    (hpre : ∀ p ∈ pre, List.isPrefixOf p.1 d = false)
    (hp : List.isPrefixOf k d = true) :
    firstMatch (pre ++ (k, r) :: post) d = some r := by
  induction pre with
  | nil => simp [firstMatch, hp]
  | cons q rest ih =>
    obtain ⟨k1, r1⟩ := q
    have h1 : List.isPrefixOf k1 d = false := hpre (k1, r1) (List.mem_cons_self _ _)
    simp only [List.cons_append, firstMatch, h1]
    simp only [Bool.false_eq_true, if_false]
    exact ih fun p hp2 => hpre p (List.mem_cons_of_mem _ hp2)

/-- When no registered key starts the data, the scan finds nothing. -/
lemma firstMatch_none (m : List (List Nat × List Nat)) (d : List Nat)
    (hm : ∀ p ∈ m, List.isPrefixOf p.1 d = false) :
    firstMatch m d = none := by
  induction m with
  | nil => rfl
  | cons q rest ih =>
    obtain ⟨k1, r1⟩ := q
    have h1 : List.isPrefixOf k1 d = false := hm (k1, r1) (List.mem_cons_self _ _)
    simp only [firstMatch, h1, Bool.false_eq_true, if_false]
    exact ih fun p hp2 => hm p (List.mem_cons_of_mem _ hp2)

/-- On a connected handler, write returns the length of the data. -/
lemma write_fst_ok (h : MockHandler) (d : List Nat) (hc : h.connected = true) :
    (h.write d).1 = .ok d.length := by
  cases hm : firstMatch h.response_map d <;> simp [MockHandler.write, hc, hm]

/-- write never changes the response table. -/
lemma write_snd_response_map (h : MockHandler) (d : List Nat) :
    ((h.write d).2).response_map = h.response_map := by
  cases hc : h.connected <;> cases hm : firstMatch h.response_map d <;>
    simp [MockHandler.write, hc, hm]

/-- read never changes the response table. -/
lemma read_snd_response_map (h : MockHandler) (n : Nat) :
    ((h.read n).2).response_map = h.response_map := by
  cases hc : h.connected <;> by_cases hlt : h.read_buffer.length < n <;>
    simp [MockHandler.read, hc, hlt]

/-- read_byte ends in the same state as the underlying read of one byte. -/
lemma read_byte_snd (h : MockHandler) : h.read_byte.2 = (h.read 1).2 := by
  unfold MockHandler.read_byte
  cases hr : h.read 1 with
  | mk r h2 => cases r <;> rfl

/-- read_int ends in the same state as the underlying read of two bytes. -/
lemma read_int_snd (h : MockHandler) : h.read_int.2 = (h.read 2).2 := by
  unfold MockHandler.read_int
  cases hr : h.read 2 with
  | mk r h2 => cases r <;> rfl

/-- C1: for every connected channel and every non negative size n, read(n)
returns at most n bytes and never blocks; when the buffer holds m < n
bytes it returns exactly those m bytes and leaves the buffer empty, and
when the buffer holds at least n bytes it returns exactly the first n
bytes and removes exactly those n bytes from the front of the buffer. -/
theorem read_never_blocks (h : MockHandler) (n : Nat) (hc : h.connected = true) :
    (h.read n).1 = .ok (h.read_buffer.take n) ∧
    (h.read n).2.read_buffer = h.read_buffer.drop n ∧
    (h.read_buffer.take n).length ≤ n ∧
    (h.read_buffer.length < n →
      (h.read n).1 = .ok h.read_buffer ∧ (h.read n).2.read_buffer = []) ∧
    (n ≤ h.read_buffer.length →
      (h.read_buffer.take n).length = n ∧
      h.read_buffer.take n ++ h.read_buffer.drop n = h.read_buffer) := by
  by_cases hlt : h.read_buffer.length < n
  · have htake : h.read_buffer.take n = h.read_buffer :=
      List.take_of_length_le (Nat.le_of_lt hlt)
    have hdrop : h.read_buffer.drop n = [] :=
      List.drop_eq_nil_of_le (Nat.le_of_lt hlt)
    refine ⟨?_, ?_, ?_, fun _ => ⟨?_, ?_⟩, fun hle => absurd hlt (Nat.not_lt.mpr hle)⟩ <;>
      simp [MockHandler.read, hc, hlt, htake, hdrop]
    exact Nat.le_of_lt hlt
  · refine ⟨?_, ?_, ?_, fun hlt2 => absurd hlt2 hlt, fun hle => ⟨?_, ?_⟩⟩
    · simp [MockHandler.read, hc, hlt]
    · simp [MockHandler.read, hc, hlt]
    · simp [List.length_take]
    · simp [List.length_take, Nat.min_eq_left (Nat.not_lt.mp hlt)]
    · exact List.take_append_drop n h.read_buffer

/-- C1 witness: on a connected handler whose buffer holds three bytes,
reading two yields the first two and leaves the third. -/
theorem read_never_blocks_witness :
    ((connEmpty.inject_data [1, 2, 3]).read 2).1 = .ok [1, 2] ∧
    ((connEmpty.inject_data [1, 2, 3]).read 2).2.read_buffer = [3] := by
  have hmain := read_never_blocks (connEmpty.inject_data [1, 2, 3]) 2 rfl
  exact ⟨hmain.1, hmain.2.1⟩

/-- C2: when a registered pair (k, r) has k starting the written data, the
write on a connected channel succeeds and appends exactly the response of
the first matching table entry to the read buffer, once; in particular
when no entry before (k, r) matches, r itself is appended, so scanning
stops at the first match and at most one response is applied per write. -/
theorem write_first_match_response (h : MockHandler) (d : List Nat)
    (hc : h.connected = true) (k r : List Nat)
    (hmem : (k, r) ∈ h.response_map) (hp : List.isPrefixOf k d = true) :
    (h.write d).1 = .ok d.length ∧
    (∃ r0, firstMatch h.response_map d = some r0 ∧
      (h.write d).2.read_buffer = h.read_buffer ++ r0) ∧
    (∀ pre post, h.response_map = pre ++ (k, r) :: post →
      (∀ p ∈ pre, List.isPrefixOf p.1 d = false) →
      (h.write d).2.read_buffer = h.read_buffer ++ r) := by
  obtain ⟨r0, hr0⟩ := firstMatch_isSome_of_mem h.response_map d k r hmem hp
  refine ⟨write_fst_ok h d hc, ⟨r0, hr0, ?_⟩, ?_⟩
  · simp [MockHandler.write, hc, hr0]
  · intro pre post hsplit hpre
    have hfirst : firstMatch h.response_map d = some r := by
      rw [hsplit]; exact firstMatch_first pre k r post d hpre hp
    simp [MockHandler.write, hc, hfirst]

/-- C2 witness: with key 01 mapped to AA BB, writing 01 02 returns 2 and
appends exactly AA BB to the empty read buffer. -/
theorem write_first_match_response_witness :
    (((connEmpty.register_response [1] [170, 187]).write [1, 2]).1 = .ok 2) ∧
    (((connEmpty.register_response [1] [170, 187]).write [1, 2]).2.read_buffer = [170, 187]) := by
  have hmain := write_first_match_response (connEmpty.register_response [1] [170, 187])
    [1, 2] rfl [1] [170, 187] (by simp [connEmpty, MockHandler.register_response, updMap])
    (by decide)
  refine ⟨hmain.1, ?_⟩
  have hlast := hmain.2.2 [] []
    (by simp [connEmpty, MockHandler.register_response, updMap]) (by simp)
  simpa [connEmpty, MockHandler.register_response] using hlast

/-- C3: on a connected channel, write always returns the length of the
data, and when no registered key starts the data the handler state, the
read buffer included, is unchanged. -/
theorem write_returns_length (h : MockHandler) (d : List Nat)
    (hc : h.connected = true) :
    (∃ h2, h.write d = (.ok d.length, h2)) ∧
    ((∀ p ∈ h.response_map, List.isPrefixOf p.1 d = false) →
      h.write d = (.ok d.length, h)) := by
  constructor
  · cases hm : firstMatch h.response_map d with
    | none => exact ⟨h, by simp [MockHandler.write, hc, hm]⟩
    | some r0 =>
        exact ⟨{ h with read_buffer := h.read_buffer ++ r0 },
          by simp [MockHandler.write, hc, hm]⟩
  · intro hnone
    have hfm := firstMatch_none h.response_map d hnone
    simp [MockHandler.write, hc, hfm]

/-- C3 witness: on a connected handler with an empty table, writing two
bytes returns 2 and leaves the handler unchanged. -/
theorem write_returns_length_witness :
    (∃ h2, connEmpty.write [9, 9] = (.ok 2, h2)) ∧
    connEmpty.write [9, 9] = (.ok 2, connEmpty) := by
  have hmain := write_returns_length connEmpty [9, 9] rfl
  exact ⟨hmain.1, hmain.2 (by simp [connEmpty])⟩

/-- C4: write and read produce the not connected error exactly when the
channel is disconnected, the state is unchanged on that error, and write
on a freshly constructed, never opened instance produces it. -/
theorem write_read_not_connected_iff (h : MockHandler) (d : List Nat) (n : Nat) :
    ((h.write d).1 = .error .notConnected ↔ h.connected = false) ∧
    ((h.read n).1 = .error .notConnected ↔ h.connected = false) ∧
    (h.connected = false → (h.write d).2 = h ∧ (h.read n).2 = h) ∧
    ((mkMockHandler none).write d).1 = .error .notConnected := by
  refine ⟨?_, ?_, ?_, rfl⟩
  · cases hc : h.connected
    · simp [MockHandler.write, hc]
    · cases hm : firstMatch h.response_map d <;> simp [MockHandler.write, hc, hm]
  · cases hc : h.connected
    · simp [MockHandler.read, hc]
    · by_cases hlt : h.read_buffer.length < n <;> simp [MockHandler.read, hc, hlt]
  · intro hc
    exact ⟨by simp [MockHandler.write, hc], by simp [MockHandler.read, hc]⟩

/-- C5: close disconnects and empties the read buffer, and close followed
by open yields a connected handler with an empty read buffer and the
response table exactly as before the close and open cycle. -/
theorem close_then_open_state (h : MockHandler) (p : Option String) :
    h.close.connected = false ∧
    h.close.read_buffer = [] ∧
    (h.close.openHandler p).connected = true ∧
    (h.close.openHandler p).read_buffer = [] ∧
    (h.close.openHandler p).response_map = h.response_map := by
  cases p with
  | none => exact ⟨rfl, rfl, rfl, rfl, rfl⟩
  | some s =>
      by_cases hs : s = "" <;>
        simp [MockHandler.close, MockHandler.openHandler, hs]

/-- C6 counterexample: the round trip does not hold for every channel
state in which the calls can be made. On a connected handler whose read
buffer already holds two zero bytes, send_int of 0x1234 followed by
injecting the written bytes and read_int returns 0, not 0x1234, because
read_int drains the front of the FIFO buffer first. -/
theorem send_int_roundtrip_counterexample :
    ((((({ connected := true, port := "MOCK_PORT", response_map := []
         , read_buffer := [0, 0] } : MockHandler).send_int 0x1234).2).inject_data
         [0x34, 0x12]).read_int).1 = .ok 0 ∧ (0 : Nat) ≠ 0x1234 := by
  exact ⟨by decide, by decide⟩

/-- C6 amended: on a connected channel whose read buffer is empty and
whose response table has no key starting the two written bytes, send_int
of 0x1234 followed by inject_data of the written bytes 34 12 and then
read_int returns 0x1234: the little endian 16 bit round trip law. -/
theorem send_int_roundtrip (h : MockHandler) (hc : h.connected = true)
    (hb : h.read_buffer = [])
    (hm : ∀ p ∈ h.response_map, List.isPrefixOf p.1 [0x34, 0x12] = false) :
    (((h.send_int 0x1234).2.inject_data [0x34, 0x12]).read_int).1 = .ok 0x1234 := by
  have hmod : (4660 : Nat) % 256 = 52 := by norm_num
  have hdiv : (4660 : Nat) / 256 = 18 := by norm_num
  have hfm2 : firstMatch h.response_map [52, 18] = none :=
    firstMatch_none h.response_map [52, 18] hm
  have hsend : (h.send_int 4660).2 = h := by
    simp [MockHandler.send_int, MockHandler.write, hc, hmod, hdiv, hfm2]
  rw [show (0x1234 : Nat) = 4660 from rfl, hsend]
  have hinj : h.inject_data [0x34, 0x12] =
      { h with read_buffer := [52, 18] } := by
    simp [MockHandler.inject_data, hb]
  rw [hinj]
  have hread : ({ h with read_buffer := [52, 18] } : MockHandler).read 2 =
      (.ok [52, 18], { h with read_buffer := [] }) := by
    simp [MockHandler.read, hc]
  simp [MockHandler.read_int, hread]

/-- C6 witness: the amended round trip at a concrete connected handler
with empty buffer and empty response table. -/
theorem send_int_roundtrip_witness :
    (((connEmpty.send_int 0x1234).2.inject_data [0x34, 0x12]).read_int).1 = .ok 0x1234 :=
  send_int_roundtrip connEmpty rfl rfl (by simp [connEmpty])

/-- C7 counterexample: send_byte does not raise a type error on a byte
sequence of length two; it accepts it and writes both bytes. And an
integer out of range raises a value error, not a type error. -/
theorem send_byte_counterexample :
    (connEmpty.send_byte (PyVal.bytes [1, 2])).1 = .ok () ∧
    connEmpty.send_byte (PyVal.int 300) = (.error .valueError, connEmpty) := by
  exact ⟨by decide, by decide⟩

/-- C7 amended: on a connected channel, send_byte accepts a single
integer in the range 0 to 255, writing it as one byte, and accepts any
byte sequence whatever its length, writing it as given; an integer out
of range raises a value error with the state unchanged, and only an
argument that is neither an integer nor a byte sequence raises a type
error, with the state unchanged. -/
theorem send_byte_behavior (h : MockHandler) (hc : h.connected = true) :
    (∀ n : Int, 0 ≤ n → n < 256 →
      (h.send_byte (.int n)).1 = .ok () ∧
      (h.send_byte (.int n)).2 = (h.write [n.toNat]).2) ∧
    (∀ n : Int, n < 0 ∨ 256 ≤ n →
      h.send_byte (.int n) = (.error .valueError, h)) ∧
    (∀ bs : List Nat,
      (h.send_byte (.bytes bs)).1 = .ok () ∧
      (h.send_byte (.bytes bs)).2 = (h.write bs).2) ∧
    h.send_byte .other = (.error .typeError, h) := by
  refine ⟨?_, ?_, ?_, rfl⟩
  · intro n h0 h1
    have hcond : 0 ≤ n ∧ n < 256 := ⟨h0, h1⟩
    exact ⟨by simp [MockHandler.send_byte, hcond, write_fst_ok h [n.toNat] hc, Except.map],
      by simp [MockHandler.send_byte, hcond]⟩
  · intro n hn
    have hcond : ¬ (0 ≤ n ∧ n < 256) := by
      rcases hn with hlt | hge
      · exact fun hand => absurd hlt (not_lt.mpr hand.1)
      · exact fun hand => absurd hand.2 (not_lt.mpr hge)
    simp [MockHandler.send_byte, hcond]
  · intro bs
    exact ⟨by simp [MockHandler.send_byte, write_fst_ok h bs hc, Except.map], rfl⟩

/-- C7 witness: on a concrete connected handler, an in range integer and
a three byte sequence are both accepted, and the out of range integer
300 yields the value error with the state unchanged. -/
theorem send_byte_behavior_witness :
    (connEmpty.send_byte (.int 65)).1 = .ok () ∧
    connEmpty.send_byte (.int 300) = (.error .valueError, connEmpty) ∧
    (connEmpty.send_byte (.bytes [1, 2, 3])).1 = .ok () :=
  ⟨((send_byte_behavior connEmpty rfl).1 65 (by decide) (by decide)).1,
   (send_byte_behavior connEmpty rfl).2.1 300 (Or.inr (by decide)),
   ((send_byte_behavior connEmpty rfl).2.2.1 [1, 2, 3]).1⟩

/-- C8 counterexample: supplying the empty string as the identifier does
not replace the stored one, because the empty string is falsy in Python;
the stored port stays MOCK_PORT, which differs from the argument. -/
theorem open_empty_port_counterexample :
    ((mkMockHandler none).openHandler (some "")).port = "MOCK_PORT" ∧
    ("MOCK_PORT" : String) ≠ "" := by
  exact ⟨rfl, by decide⟩

/-- C8 amended: open always succeeds and sets connected; a supplied non
empty identifier replaces the stored one, while a missing or empty
identifier leaves it unchanged; the buffer and table are untouched, and
repeated opens are idempotent apart from the identifier update. -/
theorem open_behavior (h : MockHandler) (p : String) (hp : p ≠ "") :
    (h.openHandler (some p)).connected = true ∧
    (h.openHandler (some p)).port = p ∧
    (h.openHandler none).connected = true ∧
    (h.openHandler none).port = h.port ∧
    (h.openHandler (some "")).connected = true ∧
    (h.openHandler (some "")).port = h.port ∧
    (h.openHandler (some p)).read_buffer = h.read_buffer ∧
    (h.openHandler (some p)).response_map = h.response_map ∧
    (h.openHandler (some p)).openHandler (some p) = h.openHandler (some p) := by
  simp [MockHandler.openHandler, hp]

/-- C8 witness: opening a fresh handler with the identifier COM1 connects
it and stores COM1. -/
theorem open_behavior_witness :
    ((mkMockHandler none).openHandler (some "COM1")).port = "COM1" ∧
    ((mkMockHandler none).openHandler (some "COM1")).connected = true :=
  ⟨(open_behavior (mkMockHandler none) "COM1" (by decide)).2.1,
   (open_behavior (mkMockHandler none) "COM1" (by decide)).1⟩

/-- C9: on a connected channel whose read buffer holds fewer than two
bytes, read_int returns 0 rather than raising, and leaves the buffer
empty: a stray single byte is consumed and discarded. -/
theorem read_int_short_returns_zero (h : MockHandler) (hc : h.connected = true)
    (hb : h.read_buffer.length < 2) :
    h.read_int.1 = .ok 0 ∧ h.read_int.2.read_buffer = [] := by
  have hr : h.read 2 = (.ok h.read_buffer, { h with read_buffer := [] }) := by
    simp [MockHandler.read, hc, hb]
  constructor
  · simp [MockHandler.read_int, hr, Nat.lt_irrefl, hb]
  · simp [MockHandler.read_int, hr]

/-- C9 witness: a connected handler holding the single stray byte 7 gives
read_int equal to 0 and an empty buffer afterwards. -/
theorem read_int_short_returns_zero_witness :
    (connEmpty.inject_data [7]).read_int.1 = .ok 0 ∧
    (connEmpty.inject_data [7]).read_int.2.read_buffer = [] :=
  read_int_short_returns_zero (connEmpty.inject_data [7]) rfl (by decide)

/-- C10: the response table is modified only by register_response; every
other operation, on every state, connected or not, leaves the table
unchanged. get_ack is a pure function of the state returning True, so it
cannot modify the table at all. -/
theorem response_map_only_register (h : MockHandler) (p : Option String)
    (d bs : List Nat) (n m : Nat) (v : PyVal) :
    (h.openHandler p).response_map = h.response_map ∧
    h.close.response_map = h.response_map ∧
    ((h.write d).2).response_map = h.response_map ∧
    ((h.read n).2).response_map = h.response_map ∧
    h.clear_buffer.response_map = h.response_map ∧
    ((h.send_byte v).2).response_map = h.response_map ∧
    ((h.send_int m).2).response_map = h.response_map ∧
    (h.read_byte.2).response_map = h.response_map ∧
    (h.read_int.2).response_map = h.response_map ∧
    (h.inject_data bs).response_map = h.response_map ∧
    h.get_ack = true := by
  refine ⟨?_, rfl, write_snd_response_map h d, read_snd_response_map h n,
    rfl, ?_, ?_, ?_, ?_, rfl, rfl⟩
  · cases p with
    | none => rfl
    | some s => by_cases hs : s = "" <;> simp [MockHandler.openHandler, hs]
  · cases v with
    | int nn =>
        by_cases hr : 0 ≤ nn ∧ nn < 256 <;>
          simp [MockHandler.send_byte, hr, write_snd_response_map]
    | bytes bb => simp [MockHandler.send_byte, write_snd_response_map]
    | other => rfl
  · by_cases hv : m < 65536 <;>
      simp [MockHandler.send_int, hv, write_snd_response_map]
  · rw [read_byte_snd]; exact read_snd_response_map h 1
  · rw [read_int_snd]; exact read_snd_response_map h 2

end PSLabMock
